import Mathlib

/-!
Verification of the engarde check library

Shallow embedding of the engarde data-validation library
(`engarde/checks.py`, `engarde/generic.py`) and proofs of the
specification claims about it.

A pandas `DataFrame` is modelled as a column-major table of cells; cell
values are machine integers or the floating NaN marker (`Val`).  Python
exceptions are modelled by `Except Err`: `Err.assertion` stands for an
`AssertionError` (a validation failure) carrying the exception
argument payload, and `Err.valueError` for a `ValueError` (a
configuration error).  Each check becomes a total function
`... → Except Err DF`, returning `.ok` where the Python code returns the
DataFrame and `.error` where it raises.
-/

set_option autoImplicit false

deriving instance DecidableEq for Except

namespace Engarde

/-- A cell value: an integer, or the missing-value marker NaN. -/
inductive Val where
  | int : Int → Val
  | nan : Val
deriving DecidableEq, Repr

/-- A pandas DataFrame: named columns over a shared integer row index.
`data` is column-major: `data[i]` holds the values of column `cols[i]`,
one per row label in `index`.  `dtypes[i]` is the dtype string of
column `cols[i]`. -/
structure DF where
  cols : List String
  index : List Int
  dtypes : List String
  data : List (List Val)
deriving DecidableEq, Repr

/-- A boolean mask DataFrame (the result of `df.isnull()` and friends),
column-major like `DF`. -/
structure BDF where
  cols : List String
  index : List Int
  data : List (List Bool)
deriving DecidableEq, Repr

/-- Exception argument payloads (`e.args` of the raised exception). -/
inductive ErrPayload where
  /-- A bare `AssertionError` with no arguments. -/
  | bare : ErrPayload
  /-- A single message string. -/
  | msg : String → ErrPayload
  /-- A message together with the offending DataFrame (`verify_df`). -/
  | msgDf : String → DF → ErrPayload
  /-- A list of offending (row-label, column-name) locations. -/
  | locs : List (Int × String) → ErrPayload
  /-- A message plus the offending (row-label, value) entries (`within_set`). -/
  | vals : String → List (Int × Val) → ErrPayload
  /-- A message plus a per-row boolean violation mask (`within_range`). -/
  | mask : String → List (Int × Bool) → ErrPayload
  /-- A list of duplicated index labels (`unique_index`). -/
  | labels : List Int → ErrPayload
  /-- "These columns do not pass the validation", with the failing
  column names (`verify_df_series`, axis 0). -/
  | colsFail : List String → ErrPayload
  /-- "These rows do not pass the validation", with the failing
  row labels (`verify_df_series`, axis 1). -/
  | rowsFail : List Int → ErrPayload
deriving DecidableEq, Repr

/-- A raised Python exception: `AssertionError` (validation failure) or
`ValueError` (configuration error). -/
inductive Err where
  | assertion : ErrPayload → Err
  | valueError : String → Err
deriving DecidableEq, Repr

/-- Python `repr` of a string: the text in single quotes (`{!r}`). -/
def pyRepr (s : String) : String := "\x27" ++ s ++ "\x27"

/-- Keep-first deduplication (the semantics of pandas
`drop_duplicates` / `Series.unique`), skipping entries already in
`seen`. -/
def dedupFirstAux {α : Type} [DecidableEq α] (seen : List α) : List α → List α
  | [] => []
  | a :: rest =>
    if a ∈ seen then dedupFirstAux seen rest
    else a :: dedupFirstAux (a :: seen) rest

/-- Keep the first occurrence of each element, preserving order: the
semantics of pandas `drop_duplicates` and `Series.unique`. -/
def dedupFirst {α : Type} [DecidableEq α] (l : List α) : List α := dedupFirstAux [] l

/-- Index of a column name in the header row. -/
def DF.colIdx (df : DF) (c : String) : Option Nat :=
  df.cols.findIdx? (fun x => x == c)

/-- The embedded `df[c]`: the values of column `c` (empty when absent). -/
def DF.col (df : DF) (c : String) : List Val :=
  match df.colIdx c with
  | some i => df.data.getD i []
  | none => []

/-- The embedded `df.dtypes[c]`: the dtype string of column `c`. -/
def DF.dtypeOf (df : DF) (c : String) : String :=
  match df.colIdx c with
  | some i => df.dtypes.getD i ""
  | none => ""

/-- Position of a row label in the index (first match). -/
def DF.rowIdx (df : DF) (r : Int) : Option Nat :=
  df.index.findIdx? (fun x => x == r)

/-- The embedded `df.loc[r, c]`: the cell at row label `r`, column `c`.
Looks up the first matching row label; an absent label or column is out
outside the scope of the claims and yields NaN. -/
def DF.cell (df : DF) (r : Int) (c : String) : Val :=
  match df.colIdx c, df.rowIdx r with
  | some ci, some ri => (df.data.getD ci []).getD ri Val.nan
  | _, _ => Val.nan

/-- The embedded `df[cols]`: column selection, keeping the given order. -/
def DF.select (df : DF) (cs : List String) : DF :=
  { cols := cs
    index := df.index
    dtypes := cs.map df.dtypeOf
    data := cs.map df.col }

/-- The embedded `df.isnull()`: the boolean mask marking NaN cells. -/
def DF.isnull (df : DF) : BDF :=
  { cols := df.cols
    index := df.index
    data := df.data.map (fun col => col.map (fun v => v == Val.nan)) }

/-- The embedded `mask.any().any()`: is any cell of the mask True. -/
def BDF.anyAny (m : BDF) : Bool :=
  m.data.any (fun col => col.any id)

/-- The embedded `~mask`: elementwise negation of a boolean mask. -/
def BDF.not (m : BDF) : BDF :=
  { m with data := m.data.map (fun col => col.map (fun b => !b)) }

/-- The embedded `generic.bad_locations`: pair every row label with every column
name in column-major order (`chain` of `zip(df.index, cycle([col]))`
over the columns), flatten the mask in Fortran order (`ravel(1)`), and
keep the locations where the mask is True. -/
def bad_locations (df : BDF) : List (Int × String) :=
  let all_locs := df.cols.flatMap (fun col => df.index.map (fun r => (r, col)))
  let raveled := df.data.flatten
  ((all_locs.zip raveled).filter (fun p => p.2)).map (fun p => p.1)

/-- The embedded `generic.verify_df`: assert `check(df)`.  `name` stands for
`check.__name__`; on failure the exception args are the message
"name is not true" together with the DataFrame. -/
def verify_df (df : DF) (check : DF → Bool) (name : String) : Except Err DF :=
  let result := check df
  if result then .ok df
  else .error (.assertion (.msgDf (name ++ " is not true") df))

/-- The embedded `checks.none_missing`: assert `not df[columns].isnull().any().any()`;
on failure the exception args are `bad_locations` of the null mask. -/
def none_missing (df : DF) (columns : Option (List String)) : Except Err DF :=
  let cols := columns.getD df.cols
  let missing := (df.select cols).isnull
  if missing.anyAny then .error (.assertion (.locs (bad_locations missing)))
  else .ok df

/-! ## is_monotonic -/

/-- Does the value list contain a NaN. -/
def hasNan (vs : List Val) : Bool := vs.any (fun v => v == Val.nan)

/-- Pairwise comparison of consecutive values (integers only; a pair
touching NaN compares false). -/
def pairwiseVal (r : Int → Int → Bool) : List Val → Bool
  | [] => true
  | [_] => true
  | a :: b :: rest =>
    (match a, b with
     | Val.int x, Val.int y => r x y
     | _, _ => false) && pairwiseVal r (b :: rest)

/-- The embedded `pd.Index(...).is_monotonic_increasing`: non-decreasing, false in
the presence of NaN. -/
def monoInc (vs : List Val) : Bool := !hasNan vs && pairwiseVal (fun x y => x ≤ y) vs

/-- The embedded `pd.Index(...).is_monotonic_decreasing`: non-increasing, false in
the presence of NaN. -/
def monoDec (vs : List Val) : Bool := !hasNan vs && pairwiseVal (fun x y => y ≤ x) vs

/-- The embedded `s.to_series().diff().dropna()`: consecutive differences, dropping
entries where either neighbour is NaN (those differences are NaN). -/
def diffs : List Val → List Int
  | a :: b :: rest =>
    (match a, b with
     | Val.int x, Val.int y => [y - x]
     | _, _ => []) ++ diffs (b :: rest)
  | _ => []

/-- The per-column body of `checks.is_monotonic`: condition for one
column under a `(increasing, strict)` directive. -/
def monotonicOk (vs : List Val) (increasing : Option Bool) (strict : Bool) : Bool :=
  let good :=
    match increasing with
    | some true => monoInc vs
    | none => monoInc vs || monoDec vs
    | some false => monoDec vs
  if strict then
    good &&
      (match increasing with
       | some true => (diffs vs).all (fun d => 0 < d)
       | none => (diffs vs).all (fun d => 0 < d) || (diffs vs).all (fun d => d < 0)
       | some false => (diffs vs).all (fun d => d < 0))
  else good

/-- The `for col, (increasing, strict) in items.items()` loop of
`checks.is_monotonic`: raise a bare `AssertionError` at the first
non-monotonic column. -/
def is_monotonic_go (df : DF) : List (String × Option Bool × Bool) → Except Err DF
  | [] => .ok df
  | (col, increasing, strict) :: rest =>
    if !monotonicOk (df.col col) increasing strict then .error (.assertion .bare)
    else is_monotonic_go df rest

/-- The embedded `checks.is_monotonic`: when `items` is absent every column is
checked with the global `(increasing, strict)` directive. -/
def is_monotonic (df : DF) (items : Option (List (String × Option Bool × Bool)))
    (increasing : Option Bool) (strict : Bool) : Except Err DF :=
  let items := match items with
    | none => df.cols.map (fun k => (k, increasing, strict))
    | some its => its
  is_monotonic_go df items

/-! ## is_shape -/

/-- One expected dimension of `is_shape`: a number, or Python `None`. -/
abbrev ShapeDim := Option Int

/-- A dimension passes when the actual extent equals the expected one,
or the expected one is `-1` or `None` (the two wildcards of
`np.equal(df.shape, shape) | np.equal(shape, [-1,-1]) | np.equal(shape, [None,None])`). -/
def dimOk (actual : Nat) (expected : ShapeDim) : Bool :=
  match expected with
  | none => true
  | some v => (actual : Int) == v || v == -1

/-- Python `str` of an expected dimension (`None` prints as `None`). -/
def fmtDim : ShapeDim → String
  | none => "None"
  | some v => toString v

/-- Python `str` of the expected shape tuple. -/
def fmtShape (s : ShapeDim × ShapeDim) : String :=
  "(" ++ fmtDim s.1 ++ ", " ++ fmtDim s.2 ++ ")"

/-- Python `str` of the actual `df.shape` tuple. -/
def fmtActualShape (s : Nat × Nat) : String :=
  "(" ++ toString s.1 ++ ", " ++ toString s.2 ++ ")"

/-- The failure message of `checks.is_shape`. -/
def shapeMsg (expected : ShapeDim × ShapeDim) (actual : Nat × Nat) : String :=
  "Expected shape: " ++ fmtShape expected ++ "\n\t\tActual shape:   " ++ fmtActualShape actual

/-- The embedded `df.shape`: (number of rows, number of columns). -/
def DF.shape (df : DF) : Nat × Nat := (df.index.length, df.cols.length)

/-- The embedded `checks.is_shape`: per-dimension comparison with `-1`/`None`
wildcards; on failure the exception args are the expected-vs-actual
message. -/
def is_shape (df : DF) (shape : ShapeDim × ShapeDim) : Except Err DF :=
  if dimOk df.shape.1 shape.1 && dimOk df.shape.2 shape.2 then .ok df
  else .error (.assertion (.msg (shapeMsg shape df.shape)))

/-! ## is_unique, unique_index -/

/-- The embedded `Series.is_unique` / `Index.is_unique`: no duplicate entries (NaN
counts as equal to NaN, as in pandas). -/
def seriesIsUnique {α : Type} [DecidableEq α] : List α → Bool
  | [] => true
  | v :: rest => !rest.contains v && seriesIsUnique rest

/-- The `for col in columns` loop of `checks.is_unique`. -/
def is_unique_go (df : DF) : List String → Except Err DF
  | [] => .ok df
  | col :: rest =>
    if !seriesIsUnique (df.col col) then
      .error (.assertion (.msg ("Column " ++ pyRepr col ++ " contains non-unique values")))
    else is_unique_go df rest

/-- The embedded `checks.is_unique`: every selected column holds pairwise distinct
values (all columns when `columns is None`). -/
def is_unique (df : DF) (columns : Option (List String)) : Except Err DF :=
  let cols := columns.getD df.cols
  is_unique_go df cols

/-- The embedded `Index.get_duplicates()`: the labels occurring more than once, each
listed once in order of first appearance. -/
def get_duplicates (xs : List Int) : List Int :=
  dedupFirst (xs.filter (fun x => 1 < xs.count x))

/-- The embedded `checks.unique_index`: assert `df.index.is_unique`; on failure the
exception args are the duplicated labels. -/
def unique_index (df : DF) : Except Err DF :=
  if seriesIsUnique df.index then .ok df
  else .error (.assertion (.labels (get_duplicates df.index)))

/-! ## within_set, within_range, within_n_std -/

/-- The `for k, v in items.items()` loop of `checks.within_set`:
on failure the args are ("Not in set", bad) with `bad` the offending
rows of the column (`df.loc[~df[k].isin(v), k]`, labels kept). -/
def within_set_go (df : DF) : List (String × List Val) → Except Err DF
  | [] => .ok df
  | (k, v) :: rest =>
    let s := df.col k
    if !(s.all (fun x => v.contains x)) then
      let bad := ((df.index.zip s).filter (fun p => !v.contains p.2))
      .error (.assertion (.vals "Not in set" bad))
    else within_set_go df rest

/-- The embedded `checks.within_set`: each listed column is a subset of its allowed
values. -/
def within_set (df : DF) (items : List (String × List Val)) : Except Err DF :=
  within_set_go df items

/-- The embedded `lower > x` on a cell: false on NaN (as any float comparison). -/
def cellBelow (lower : Int) : Val → Bool
  | Val.int x => x < lower
  | Val.nan => false

/-- The embedded `upper < x` on a cell: false on NaN. -/
def cellAbove (upper : Int) : Val → Bool
  | Val.int x => upper < x
  | Val.nan => false

/-- The `for k, (lower, upper) in items.items()` loop of
`checks.within_range`: on failure the args are ("Outside range", bad)
with `bad` the per-row violation mask `(lower > df[k]) | (upper < df[k])`. -/
def within_range_go (df : DF) : List (String × Int × Int) → Except Err DF
  | [] => .ok df
  | (k, lower, upper) :: rest =>
    let s := df.col k
    if s.any (cellBelow lower) || s.any (cellAbove upper) then
      let bad := (df.index.zip (s.map (fun x => cellBelow lower x || cellAbove upper x)))
      .error (.assertion (.mask "Outside range" bad))
    else within_range_go df rest

/-- The embedded `checks.within_range`: each listed column lies within its
`(lower, upper)` bounds. -/
def within_range (df : DF) (items : List (String × Int × Int)) : Except Err DF :=
  within_range_go df items

/-- The numeric content of a cell. -/
def valInt? : Val → Option Int
  | Val.int x => some x
  | Val.nan => none

/-- One cell of the `np.abs(df - means) < n * stds` inlier mask of
`checks.within_n_std`, for a cell of the column `col`.  With `L`
numbers in the column summing to `S` (NaN skipped), the column mean is
`S / L` and the sample variance (ddof=1) is
`var = (sum of (y - S/L)^2) / (L - 1)`.  The comparison
`|x - mean| < n * std` with `std = sqrt(var)` is encoded exactly, with
no square roots or divisions: for `0 ≤ n` it is equivalent to
`(x - mean)^2 < n^2 * var`, and multiplying through by the positive
`L^2 * (L - 1)` gives
`(x*L - S)^2 * (L - 1) < n^2 * sum of (y*L - S)^2`; for `n < 0` the
original comparison is false (its right-hand side is nonpositive).
A NaN cell compares false, and a column with fewer than two numbers has
`std = NaN`, comparing false as well. -/
def cellInlier (n : Int) (col : List Val) : Val → Bool
  | Val.nan => false
  | Val.int x =>
    let xs := col.filterMap valInt?
    if xs.length < 2 then false
    else
      let L : Int := (xs.length : Int)
      let S : Int := xs.sum
      decide (0 ≤ n) &&
        decide ((x * L - S) ^ 2 * (L - 1) < n ^ 2 * (xs.map (fun y => (y * L - S) ^ 2)).sum)

/-- The inlier mask of `checks.within_n_std`. -/
def inlierMask (df : DF) (n : Int) : BDF :=
  { cols := df.cols
    index := df.index
    data := df.data.map (fun col => col.map (cellInlier n col)) }

/-- The embedded `checks.within_n_std`: every value lies within `n` standard
deviations of the column mean; on failure the args are
`bad_locations(~inliers)`. -/
def within_n_std (df : DF) (n : Int) : Except Err DF :=
  let inliers := inlierMask df n
  if !(inliers.data.all (fun col => col.all id)) then
    .error (.assertion (.locs (bad_locations inliers.not)))
  else .ok df

/-! ## has_dtypes -/

/-- The value a dtype-checking function may return (`bool` is what the
contract requires; anything else, e.g. the string `"yes"`, trips the
`isinstance(result, bool)` check). -/
inductive PyRes where
  | bool : Bool → PyRes
  | str : String → PyRes
deriving DecidableEq, Repr

/-- Python `repr(type(result))` for a `PyRes`. -/
def pyResTypeRepr : PyRes → String
  | PyRes.bool _ => "<class " ++ pyRepr "bool" ++ ">"
  | PyRes.str _ => "<class " ++ pyRepr "str" ++ ">"

/-- One rule of `checks.has_dtypes`: a function on the dtype (with its
`__name__`), or a string (an `infer_dtype` name or a dtype). -/
inductive DtypeRule where
  | func : String → (String → PyRes) → DtypeRule
  | str : String → DtypeRule

/-- The `items` argument of `checks.has_dtypes`: a mapping from column
name to rule, or a single rule. -/
inductive DtypeItems where
  | mapping : List (String × DtypeRule) → DtypeItems
  | single : DtypeRule → DtypeItems

/-- The `infer_strings` set of `checks.has_dtypes`. -/
def infer_strings : List String :=
  ["string", "unicode", "bytes",
   "floating", "integer", "mixed-integer",
   "mixed-integer-float", "complex,", "categorical",
   "boolean", "datetime64", "datetime",
   "date", "timedelta64", "timedelta",
   "time", "period", "mixed"]

/-- The embedded `pd.api.types.infer_dtype` on our value universe: a column of plain
machine integers infers as `integer`; a NaN makes the column float-like
and it infers as `mixed-integer-float`. -/
def infer_dtype (vs : List Val) : String :=
  if hasNan vs then "mixed-integer-float" else "integer"

/-- The embedded `pd.api.types.is_dtype_equal` on dtype strings, with the
string-to-dtype conversion modelled as canonical-string equality. -/
def is_dtype_equal (a b : String) : Bool := a == b

/-- The message of `checks.has_dtypes` when a rule function returns a
non-boolean. -/
def dtypeFuncNonBoolMsg (k : String) (result : PyRes) : String :=
  "The function for key  " ++ pyRepr k ++ " must return a boolean, returned type "
    ++ pyResTypeRepr result

/-- The message of `checks.has_dtypes` when a rule function rejects the
dtype of the column. -/
def dtypeFuncFalseMsg (k dtype fname : String) : String :=
  "Column " ++ pyRepr k ++ " has the wrong dtype (" ++ pyRepr dtype ++ ") for function "
    ++ pyRepr fname

/-- The message of `checks.has_dtypes` on an `infer_dtype` mismatch. -/
def dtypeInferMsg (k v inferred : String) : String :=
  "Column " ++ pyRepr k ++ " expected " ++ pyRepr v ++ " for infer_dtype, got "
    ++ pyRepr inferred

/-- The message of `checks.has_dtypes` on a dtype mismatch. -/
def dtypeMismatchMsg (k v dtype : String) : String :=
  "Column " ++ pyRepr k ++ " is checked for dtype " ++ pyRepr v ++ ", had dtype "
    ++ pyRepr dtype

/-- The `for k, v in items.items()` loop of `checks.has_dtypes`:
a function rule is applied to `df.dtypes[k]` and must return a bool;
a string in `infer_strings` is compared with `infer_dtype(df[k])`;
any other rule is compared with the dtype via `is_dtype_equal`. -/
def has_dtypes_go (df : DF) : List (String × DtypeRule) → Except Err DF
  | [] => .ok df
  | (k, v) :: rest =>
    let dtype := df.dtypeOf k
    match v with
    | DtypeRule.func fname f =>
      match f dtype with
      | PyRes.bool b =>
        if !b then .error (.assertion (.msg (dtypeFuncFalseMsg k dtype fname)))
        else has_dtypes_go df rest
      | r => .error (.assertion (.msg (dtypeFuncNonBoolMsg k r)))
    | DtypeRule.str s =>
      if infer_strings.contains s then
        let inferred := infer_dtype (df.col k)
        if !(inferred == s) then .error (.assertion (.msg (dtypeInferMsg k s inferred)))
        else has_dtypes_go df rest
      else
        if !(is_dtype_equal dtype s) then .error (.assertion (.msg (dtypeMismatchMsg k s dtype)))
        else has_dtypes_go df rest

/-- The embedded `checks.has_dtypes`: a non-mapping `items` is broadcast to a
mapping over all columns, then each column is checked against its
rule. -/
def has_dtypes (df : DF) (items : DtypeItems) : Except Err DF :=
  let items := match items with
    | DtypeItems.mapping m => m
    | DtypeItems.single r => df.cols.map (fun col_name => (col_name, r))
  has_dtypes_go df items

/-! ## one_to_many, is_same_as -/

/-- Python `str` of a value. -/
def valStr : Val → String
  | Val.int n => toString n
  | Val.nan => "nan"

/-- Elementwise pandas `==` on cells: a float comparison that is never
true for NaN.  (This differs from decidable equality on `Val`, which
`dedupFirst` uses to model the NaN-treated-as-equal semantics of
`drop_duplicates` and `unique`.) -/
def pyEq : Val → Val → Bool
  | Val.int a, Val.int b => a == b
  | _, _ => false

/-- The `for many in subset[manycol].unique()` loop of
`checks.one_to_many` over the deduplicated (many, unit) pairs.
`subset[subset[manycol] == many]` is an elementwise float comparison,
so it matches nothing when `many` is NaN. -/
def one_to_many_go (df : DF) (unitcol manycol : String) (subset : List (Val × Val)) :
    List Val → Except Err DF
  | [] => .ok df
  | many :: rest =>
    if 1 < (subset.filter (fun p => pyEq p.1 many)).length then
      .error (.assertion (.msg (valStr many ++ " in " ++ manycol
        ++ " has multiple values for " ++ unitcol)))
    else one_to_many_go df unitcol manycol subset rest

/-- The embedded `subset = df[[manycol, unitcol]].drop_duplicates()` of
`checks.one_to_many`: the (many, unit) pairs with exact duplicates
dropped, first occurrences kept. -/
def otm_subset (df : DF) (unitcol manycol : String) : List (Val × Val) :=
  dedupFirst ((df.col manycol).zip (df.col unitcol))

/-- The embedded `checks.one_to_many`: over the deduplicated pairs, each distinct
`manycol` value (in order of first appearance, as `Series.unique`) must
occur in exactly one surviving pair. -/
def one_to_many (df : DF) (unitcol manycol : String) : Except Err DF :=
  let subset := otm_subset df unitcol manycol
  one_to_many_go df unitcol manycol subset (dedupFirst (subset.map Prod.fst))

/-- The embedded `checks.is_same_as`: `tm.assert_frame_equal` modelled as structural
equality of the two tables (the tolerance keyword options are not
modelled); on mismatch the original error is re-raised as
`AssertionError("DataFrames are not equal")`. -/
def is_same_as (df df_to_compare : DF) : Except Err DF :=
  if df == df_to_compare then .ok df
  else .error (.assertion (.msg "DataFrames are not equal"))

/-! ## verify_df_series, verify_columns, verify_rows -/

/-- The embedded `rows or slice(None)` of `generic.verify_df_series`: any falsy
`rows` argument — `None` or the empty list — selects the full index. -/
def resolveRows (df : DF) : Option (List Int) → List Int
  | none => df.index
  | some [] => df.index
  | some rs => rs

/-- The embedded `columns or slice(None)` of `generic.verify_df_series`: any falsy
`columns` argument — `None` or the empty list — selects all columns. -/
def resolveCols (df : DF) : Option (List String) → List String
  | none => df.cols
  | some [] => df.cols
  | some cs => cs

/-- The ValueError message of `generic.verify_df_series` for an
unrecognised `how`. -/
def howErrMsg (how : String) : String :=
  "Parameter " ++ pyRepr "how" ++ " must be either " ++ pyRepr "all" ++ " or "
    ++ pyRepr "any" ++ ", was " ++ pyRepr how

/-- The embedded `generic.verify_df_series`: select `df.loc[rows, columns]`,
aggregate `func` along `axis` (axis 0 gives one boolean per selected
column, axis 1 one per selected row), reduce with `how` (`all` /
`any`; anything else raises `ValueError`), and on a failed assertion
report the labels whose result is `False` — column names for axis 0,
row labels otherwise.  `func` is modelled as a boolean function of one
series (the mapping-of-callables form of `agg` is outside the claims
scope). -/
def verify_df_series (df : DF) (func : List Val → Bool)
    (columns : Option (List String)) (rows : Option (List Int))
    (axis : Nat) (how : String) : Except Err DF :=
  let rws := resolveRows df rows
  let cls := resolveCols df columns
  let colResults : List (String × Bool) :=
    cls.map (fun c => (c, func (rws.map (fun r => df.cell r c))))
  let rowResults : List (Int × Bool) :=
    rws.map (fun r => (r, func (cls.map (fun c => df.cell r c))))
  let results : List Bool :=
    if axis == 0 then colResults.map Prod.snd else rowResults.map Prod.snd
  if how == "all" then
    if results.all id then .ok df
    else .error (.assertion (if axis == 0
      then .colsFail ((colResults.filter (fun p => p.2 == false)).map Prod.fst)
      else .rowsFail ((rowResults.filter (fun p => p.2 == false)).map Prod.fst)))
  else if how == "any" then
    if results.any id then .ok df
    else .error (.assertion (if axis == 0
      then .colsFail ((colResults.filter (fun p => p.2 == false)).map Prod.fst)
      else .rowsFail ((rowResults.filter (fun p => p.2 == false)).map Prod.fst)))
  else .error (.valueError (howErrMsg how))

/-- The embedded `generic.verify_columns`: `verify_df_series` bound to axis 0. -/
def verify_columns (df : DF) (func : List Val → Bool)
    (columns : Option (List String)) (how : String) : Except Err DF :=
  verify_df_series df func columns none 0 how

/-- The embedded `generic.verify_rows`: `verify_df_series` bound to axis 1. -/
def verify_rows (df : DF) (func : List Val → Bool)
    (rows : Option (List Int)) (how : String) : Except Err DF :=
  verify_df_series df func none rows 1 how

/-! ## Concrete example tables used by the claims -/

/-- The table of the fail-fast completeness example:
columns A = [1, NaN, 3] and B = [1, 2, 3]. -/
def dfMissingA : DF :=
  { cols := ["A", "B"]
    index := [0, 1, 2]
    dtypes := ["float64", "int64"]
    data := [[Val.int 1, Val.nan, Val.int 3], [Val.int 1, Val.int 2, Val.int 3]] }

/-- A one-column table holding [1, 1, 2]. -/
def dfMono112 : DF :=
  { cols := ["A"]
    index := [0, 1, 2]
    dtypes := ["int64"]
    data := [[Val.int 1, Val.int 1, Val.int 2]] }

/-- A one-column table holding [3, 2, 1]. -/
def dfMono321 : DF :=
  { cols := ["A"]
    index := [0, 1, 2]
    dtypes := ["int64"]
    data := [[Val.int 3, Val.int 2, Val.int 1]] }

/-- The one-to-many example: rows (dept=1, emp=1), (dept=1, emp=2),
(dept=2, emp=1). -/
def dfDeptEmp : DF :=
  { cols := ["dept", "emp"]
    index := [0, 1, 2]
    dtypes := ["int64", "int64"]
    data := [[Val.int 1, Val.int 1, Val.int 2], [Val.int 1, Val.int 2, Val.int 1]] }

/-- A three-column table. -/
def dfThree : DF :=
  { cols := ["A", "B", "C"]
    index := [0, 1]
    dtypes := ["int64", "int64", "int64"]
    data := [[Val.int 1, Val.int 2], [Val.int 3, Val.int 4], [Val.int 5, Val.int 6]] }

example : none_missing dfMissingA none =
    .error (.assertion (.locs [(1, "A")])) := by decide
example : is_monotonic dfMono112 none (some true) true = .error (.assertion .bare) := by decide
example : is_monotonic dfMono112 none (some true) false = .ok dfMono112 := by decide
example : is_monotonic dfMono321 none none false = .ok dfMono321 := by decide
example : one_to_many dfDeptEmp "dept" "emp" =
    .error (.assertion (.msg "1 in emp has multiple values for dept")) := by decide
example : is_shape dfDeptEmp (some (-1), some 2) = .ok dfDeptEmp := by decide
example : is_shape dfMissingA (some 3, some 2) = .ok dfMissingA := by decide
example : is_shape dfMissingA (some 4, none) =
    .error (.assertion (.msg (shapeMsg (some 4, none) (3, 2)))) := by decide
example :
    verify_columns dfDeptEmp (fun vs => vs.all (fun v => v == Val.int 1)) none "bogus" =
      .error (.valueError (howErrMsg "bogus")) := by decide
example :
    verify_columns dfDeptEmp (fun vs => vs.contains (Val.int 2)) none "any" =
      .ok dfDeptEmp := by decide
example :
    verify_columns dfDeptEmp (fun vs => vs.all (fun v => v == Val.int 1)) none "all" =
      .error (.assertion (.colsFail ["dept", "emp"])) := by decide
example :
    verify_columns dfDeptEmp (fun vs => vs.contains (Val.int 2)) (some []) "all" =
      .ok dfDeptEmp := by decide
example : within_n_std dfDeptEmp 3 = .ok dfDeptEmp := by decide
example : within_n_std dfDeptEmp 0 =
    .error (.assertion (.locs [(0, "dept"), (1, "dept"), (2, "dept"),
      (0, "emp"), (1, "emp"), (2, "emp")])) := by decide
example :
    has_dtypes dfDeptEmp (DtypeItems.single (DtypeRule.str "int64")) = .ok dfDeptEmp := by
  decide
example :
    has_dtypes dfDeptEmp (DtypeItems.mapping [("dept", DtypeRule.func "f" (fun _ => PyRes.str "yes"))]) =
      .error (.assertion (.msg (dtypeFuncNonBoolMsg "dept" (PyRes.str "yes")))) := by
  decide

/-! ## Claim theorems -/

/-- Claim C2: `verify_df(table, predicate, ...)` evaluates
`predicate(table, ...)`; if the result is falsy it fails with a
validation error whose payload carries the predicate name and the
table, and if the result is truthy it returns the same table. -/
theorem claim_C2 (df : DF) (check : DF → Bool) (name : String) :
    (check df = true → verify_df df check name = .ok df) ∧
    (check df = false → verify_df df check name =
      .error (.assertion (.msgDf (name ++ " is not true") df))) := by
  constructor <;> intro h <;> simp [verify_df, h]

/-- Witness for C2 at a concrete table, a passing and a failing
predicate. -/
theorem claim_C2_witness :
    verify_df dfDeptEmp (fun _ => true) "checker" = .ok dfDeptEmp ∧
    verify_df dfDeptEmp (fun _ => false) "checker" =
      .error (.assertion (.msgDf ("checker" ++ " is not true") dfDeptEmp)) :=
  ⟨(claim_C2 dfDeptEmp (fun _ => true) "checker").1 rfl,
   (claim_C2 dfDeptEmp (fun _ => false) "checker").2 rfl⟩

/-- Claim C5: `is_monotonic` on a column [1,1,2] raises with
`strict=True, increasing=True`, passes with `strict=False,
increasing=True`; on a column [3,2,1] with `increasing=None` it passes
(monotonic decreasing is accepted when no direction is given). -/
theorem claim_C5 :
    is_monotonic dfMono112 none (some true) true = .error (.assertion .bare) ∧
    is_monotonic dfMono112 none (some true) false = .ok dfMono112 ∧
    is_monotonic dfMono321 none none false = .ok dfMono321 := by
  decide

/-- Claim C6: `is_shape` treats `-1` (or `None`) as a wildcard for its
dimension only: `is_shape(T, (-1, 2))` passes for every table with
exactly 2 columns regardless of row count, and raises with the
expected-vs-actual message for every table with 3 columns. -/
theorem claim_C6 (df : DF) :
    (df.cols.length = 2 → is_shape df (some (-1), some 2) = .ok df) ∧
    (df.cols.length = 3 → is_shape df (some (-1), some 2) =
      .error (.assertion (.msg (shapeMsg (some (-1), some 2) df.shape)))) := by
  constructor <;> intro h <;> simp [is_shape, dimOk, DF.shape, h]

/-- Witness for C6: a 2-column table passes, a 3-column table fails. -/
theorem claim_C6_witness :
    (dfDeptEmp.cols.length = 2 ∧ is_shape dfDeptEmp (some (-1), some 2) = .ok dfDeptEmp) ∧
    (dfThree.cols.length = 3 ∧ is_shape dfThree (some (-1), some 2) =
      .error (.assertion (.msg (shapeMsg (some (-1), some 2) dfThree.shape)))) :=
  ⟨⟨by decide, (claim_C6 dfDeptEmp).1 (by decide)⟩,
   ⟨by decide, (claim_C6 dfThree).2 (by decide)⟩⟩

/-- Claim C10: in `verify_df_series` (and hence `verify_columns` and
`verify_rows`) any falsy `columns`/`rows` argument — in particular the
empty list — is replaced by the full slice, so
`verify_columns(df, f, columns=[])` checks every column of `df` rather
than checking nothing (last conjunct: with an empty `columns` list both
columns of the example table are checked and fail). -/
theorem claim_C10 :
    (∀ (df : DF) (func : List Val → Bool) (axis : Nat) (how : String),
      verify_df_series df func (some []) none axis how =
        verify_df_series df func none none axis how) ∧
    (∀ (df : DF) (func : List Val → Bool) (axis : Nat) (how : String),
      verify_df_series df func none (some []) axis how =
        verify_df_series df func none none axis how) ∧
    (∀ (df : DF) (func : List Val → Bool) (how : String),
      verify_columns df func (some []) how = verify_columns df func none how) ∧
    (∀ (df : DF) (func : List Val → Bool) (how : String),
      verify_rows df func (some []) how = verify_rows df func none how) ∧
    verify_columns dfDeptEmp (fun vs => vs.all (fun v => v == Val.int 1)) (some []) "all" =
      .error (.assertion (.colsFail ["dept", "emp"])) :=
  ⟨fun _ _ _ _ => rfl, fun _ _ _ _ => rfl, fun _ _ _ => rfl, fun _ _ _ => rfl, by decide⟩

/-- Claim C4: in `has_dtypes` a function rule is applied to the
dtype of the column; a non-boolean result (e.g. the string "yes") raises,
with an error distinguished from a validation failure (a dtype
mismatch); and a single non-mapping rule is broadcast so that every
column is checked against it equally. -/
theorem claim_C4 :
    (∀ (df : DF) (r : DtypeRule),
      has_dtypes df (DtypeItems.single r) =
        has_dtypes df (DtypeItems.mapping (df.cols.map (fun c => (c, r))))) ∧
    (∀ (df : DF) (k fname : String) (f : String → PyRes)
        (rest : List (String × DtypeRule)) (s : String),
      f (df.dtypeOf k) = PyRes.str s →
      has_dtypes_go df ((k, DtypeRule.func fname f) :: rest) =
        .error (.assertion (.msg (dtypeFuncNonBoolMsg k (PyRes.str s))))) ∧
    (has_dtypes dfDeptEmp
        (DtypeItems.mapping [("dept", DtypeRule.func "f" (fun _ => PyRes.str "yes"))]) =
      .error (.assertion (.msg (dtypeFuncNonBoolMsg "dept" (PyRes.str "yes")))) ∧
     has_dtypes dfDeptEmp (DtypeItems.mapping [("dept", DtypeRule.str "float64")]) =
      .error (.assertion (.msg (dtypeMismatchMsg "dept" "float64" "int64"))) ∧
     Err.assertion (.msg (dtypeFuncNonBoolMsg "dept" (PyRes.str "yes"))) ≠
      Err.assertion (.msg (dtypeMismatchMsg "dept" "float64" "int64"))) := by
  refine ⟨fun df r => rfl, fun df k fname f rest s h => ?_, by decide, by decide, by decide⟩
  simp [has_dtypes_go, h]

/-- Witness for C4: the "yes"-returning dtype function at a concrete
table. -/
theorem claim_C4_witness :
    has_dtypes_go dfDeptEmp [("dept", DtypeRule.func "f" (fun _ => PyRes.str "yes"))] =
      .error (.assertion (.msg (dtypeFuncNonBoolMsg "dept" (PyRes.str "yes")))) :=
  claim_C4.2.1 dfDeptEmp "dept" "f" (fun _ => PyRes.str "yes") [] "yes" rfl

/-- The null mask of a column selection has a True cell exactly when
some selected column holds a NaN. -/
lemma anyAny_select_isnull (df : DF) (cols : List String) :
    ((df.select cols).isnull).anyAny = true ↔
      ∃ c ∈ cols, ∃ v ∈ df.col c, v = Val.nan := by
  simp [BDF.anyAny, DF.isnull, DF.select, List.any_map, List.any_eq_true, Function.comp]

/-- Claim C7: `none_missing` passes iff no selected cell is null
(selection defaulting to all columns); on failure the error payload is
the `bad_locations` list of (row-label, column-name) null locations; in
particular on the table with A = [1, NaN, 3], B = [1, 2, 3] it raises
reporting the single location (row 1, column "A"). -/
theorem claim_C7 :
    (∀ (df : DF) (columns : Option (List String)),
      none_missing df columns = .ok df ↔
        ∀ c ∈ columns.getD df.cols, ∀ v ∈ df.col c, v ≠ Val.nan) ∧
    (∀ (df : DF) (columns : Option (List String)),
      none_missing df columns ≠ .ok df →
      none_missing df columns = .error (.assertion (.locs
        (bad_locations ((df.select (columns.getD df.cols)).isnull))))) ∧
    none_missing dfMissingA none = .error (.assertion (.locs [(1, "A")])) := by
  have hnm : ∀ (df : DF) (columns : Option (List String)),
      none_missing df columns =
        if ((df.select (columns.getD df.cols)).isnull).anyAny then
          .error (.assertion (.locs (bad_locations ((df.select (columns.getD df.cols)).isnull))))
        else .ok df := fun _ _ => rfl
  refine ⟨fun df columns => ?_, fun df columns h => ?_, by decide⟩
  · rw [hnm]
    by_cases hm : ((df.select (columns.getD df.cols)).isnull).anyAny = true
    · rw [if_pos hm]
      obtain ⟨c, hc, v, hv, hnan⟩ := (anyAny_select_isnull df _).1 hm
      constructor
      · intro hcontra; cases hcontra
      · intro hall; exact absurd hnan (hall c hc v hv)
    · rw [if_neg hm]
      constructor
      · intro _ c hc v hv hnan
        exact hm ((anyAny_select_isnull df _).2 ⟨c, hc, v, hv, hnan⟩)
      · intro _; rfl
  · rw [hnm] at h ⊢
    by_cases hm : ((df.select (columns.getD df.cols)).isnull).anyAny = true
    · rw [if_pos hm]
    · rw [if_neg hm] at h; exact absurd rfl h

/-- Witness for C7: the failure-branch clause at the concrete table
with a NaN in column A. -/
theorem claim_C7_witness :
    none_missing dfMissingA none = .error (.assertion (.locs
      (bad_locations ((dfMissingA.select (Option.getD none dfMissingA.cols)).isnull)))) :=
  claim_C7.2.1 dfMissingA none (by decide)

/-- Filtering and projecting one column block of the location/mask
zip: tagging the row labels with the column name commutes with
filtering by the mask. -/
lemma zip_block (c : String) (index : List Int) :
    ∀ l : List Bool,
      (((index.map (fun r => (r, c))).zip l).filter (fun p => p.2)).map (fun p => p.1) =
        ((index.zip l).filter (fun q => q.2)).map (fun q => (q.1, c)) := by
  induction index with
  | nil => intro l; simp
  | cons r rest ih =>
    intro l
    cases l with
    | nil => simp
    | cons b bs => cases b <;> simp [ih bs]

/-- The embedded `bad_locations` decomposes into per-column blocks when the mask is
rectangular. -/
lemma bad_locations_blocks (index : List Int) :
    ∀ (cols : List String) (data : List (List Bool)),
      data.length = cols.length →
      (∀ l ∈ data, l.length = index.length) →
      (((cols.flatMap (fun col => index.map (fun r => (r, col)))).zip data.flatten).filter
          (fun p => p.2)).map (fun p => p.1) =
        (cols.zip data).flatMap (fun p =>
          ((index.zip p.2).filter (fun q => q.2)).map (fun q => (q.1, p.1))) := by
  intro cols
  induction cols with
  | nil =>
    intro data hlen _
    have hdata : data = [] := List.length_eq_zero.1 (by simpa using hlen)
    subst hdata; simp
  | cons c cs ih =>
    intro data hlen hcols
    cases data with
    | nil => simp at hlen
    | cons l ls =>
      have hl : l.length = index.length := hcols l (List.mem_cons_self l ls)
      have hzip : ((index.map (fun r => (r, c)))
            ++ cs.flatMap (fun col => index.map (fun r => (r, col)))).zip (l ++ ls.flatten) =
          (index.map (fun r => (r, c))).zip l
            ++ (cs.flatMap (fun col => index.map (fun r => (r, col)))).zip ls.flatten :=
        List.zip_append (by simp [hl])
      simp only [List.flatMap_cons, List.flatten_cons, hzip, List.filter_append,
        List.map_append, List.zip_cons_cons]
      rw [zip_block, ih ls (by simpa using hlen)
        (fun x hx => hcols x (List.mem_cons_of_mem _ hx))]

/-- Claim C8: `bad_locations`, given a boolean mask table with True
marking violations, returns exactly the (row-label, column-name) pairs
at the True positions, enumerated in column-major order (per column,
the True rows of that column, columns in table order). -/
theorem claim_C8 (df : BDF) (hlen : df.data.length = df.cols.length)
    (hcols : ∀ l ∈ df.data, l.length = df.index.length) :
    bad_locations df = (df.cols.zip df.data).flatMap (fun p =>
      ((df.index.zip p.2).filter (fun q => q.2)).map (fun q => (q.1, p.1))) :=
  bad_locations_blocks df.index df.cols df.data hlen hcols

/-- A concrete 3×2 boolean mask. -/
def bdfMask : BDF :=
  { cols := ["A", "B"]
    index := [0, 1, 2]
    data := [[false, true, false], [true, false, true]] }

/-- Witness for C8 at a concrete rectangular mask. -/
theorem claim_C8_witness :
    bad_locations bdfMask = (bdfMask.cols.zip bdfMask.data).flatMap (fun p =>
      ((bdfMask.index.zip p.2).filter (fun q => q.2)).map (fun q => (q.1, p.1))) :=
  claim_C8 bdfMask (by decide) (by decide)

/-- Membership in the keep-first dedup with an accumulator of already
seen elements. -/
lemma mem_dedupFirstAux {α : Type} [DecidableEq α] (x : α) :
    ∀ (l seen : List α), x ∈ dedupFirstAux seen l ↔ x ∈ l ∧ x ∉ seen := by
  intro l
  induction l with
  | nil => intro seen; simp [dedupFirstAux]
  | cons a rest ih =>
    intro seen
    by_cases h : a ∈ seen
    · rw [dedupFirstAux, if_pos h, ih]
      constructor
      · rintro ⟨hr, hs⟩; exact ⟨List.mem_cons_of_mem _ hr, hs⟩
      · rintro ⟨hr, hs⟩
        rcases List.mem_cons.1 hr with rfl | hr2
        · exact absurd h hs
        · exact ⟨hr2, hs⟩
    · rw [dedupFirstAux, if_neg h]
      simp only [List.mem_cons, ih]
      constructor
      · rintro (rfl | ⟨hr, hs⟩)
        · exact ⟨Or.inl rfl, h⟩
        · exact ⟨Or.inr hr, fun hx => hs (Or.inr hx)⟩
      · rintro ⟨rfl | hr, hs⟩
        · exact Or.inl rfl
        · by_cases hxa : x = a
          · exact Or.inl hxa
          · exact Or.inr ⟨hr, fun hx => hx.elim hxa hs⟩

/-- The embedded `dedupFirst` keeps exactly the elements of the list. -/
lemma mem_dedupFirst {α : Type} [DecidableEq α] (x : α) (l : List α) :
    x ∈ dedupFirst l ↔ x ∈ l := by
  simp [dedupFirst, mem_dedupFirstAux]

/-- The `one_to_many` loop succeeds exactly when no visited `manycol`
value matches (under the elementwise float comparison) more than one
deduplicated pair. -/
lemma one_to_many_go_ok_iff (df : DF) (u m : String) (subset : List (Val × Val)) :
    ∀ l : List Val, one_to_many_go df u m subset l = .ok df ↔
      ∀ many ∈ l, ¬ 1 < (subset.filter (fun p => pyEq p.1 many)).length := by
  intro l
  induction l with
  | nil => simp [one_to_many_go]
  | cons many rest ih =>
    by_cases h : 1 < (subset.filter (fun p => pyEq p.1 many)).length
    · rw [one_to_many_go, if_pos h]
      constructor
      · intro hc; cases hc
      · intro hall; exact absurd h (hall many (List.mem_cons_self _ _))
    · rw [one_to_many_go, if_neg h, ih]
      constructor
      · intro hall x hx
        rcases List.mem_cons.1 hx with rfl | hx2
        · exact h
        · exact hall x hx2
      · intro hall x hx; exact hall x (List.mem_cons_of_mem _ hx)

/-- A non-NaN `manycol` value drawn from the deduplicated pairs
matches at least one pair under the float comparison. -/
lemma filter_fst_pos {subset : List (Val × Val)} {many : Val}
    (h : many ∈ subset.map Prod.fst) (hnan : many ≠ Val.nan) :
    0 < (subset.filter (fun p => pyEq p.1 many)).length := by
  obtain ⟨p, hp, rfl⟩ := List.mem_map.1 h
  refine List.length_pos_of_mem (List.mem_filter.2 ⟨hp, ?_⟩)
  cases hv : p.1 with
  | nan => exact absurd hv hnan
  | int x => simp [pyEq, hv]

/-- A NaN `manycol` value matches no pair under the float
comparison. -/
lemma filter_nan_nil (subset : List (Val × Val)) :
    subset.filter (fun p => pyEq p.1 Val.nan) = [] := by
  induction subset with
  | nil => rfl
  | cons p rest ih =>
    have hp : pyEq p.1 Val.nan = false := by cases p.1 <;> rfl
    simp [List.filter_cons, hp, ih]

/-- A table whose `many` column is [NaN, NaN] against unit values
[1, 2]: the claimed one-to-many integrity is violated, yet the check
passes, because the elementwise comparison never matches NaN. -/
def dfNanMany : DF :=
  { cols := ["unit", "many"]
    index := [0, 1]
    dtypes := ["int64", "float64"]
    data := [[Val.int 1, Val.int 2], [Val.nan, Val.nan]] }

/-- Counterexample to claim C9 as stated: on the table with
(many, unit) pairs (NaN, 1) and (NaN, 2), the distinct manycol value
NaN is paired with two unitcol values after deduplication, yet
`one_to_many` passes — the comparison `subset[manycol] == many` is
all-False for NaN, so a NaN manycol value is never flagged. -/
theorem claim_C9_counterexample :
    one_to_many dfNanMany "unit" "many" = .ok dfNanMany ∧
    ¬ ∀ many ∈ (otm_subset dfNanMany "unit" "many").map Prod.fst,
        ((otm_subset dfNanMany "unit" "many").filter (fun p => p.1 == many)).length = 1 := by
  decide

/-- Claim C9 (amended): `one_to_many(df, unitcol, manycol)` passes
iff, after removing exact duplicate (manycol, unitcol) pairs, every
distinct non-NaN value of manycol is paired with exactly one value of
unitcol — NaN values of manycol are never flagged, because the
elementwise comparison selecting a value's pairs never matches NaN; on
violation it raises a message naming the violating manycol value —
e.g. the table with pairs (dept=1, emp=1), (dept=1, emp=2),
(dept=2, emp=1) raises naming emp 1. -/
theorem claim_C9 :
    (∀ (df : DF) (unitcol manycol : String),
      one_to_many df unitcol manycol = .ok df ↔
        ∀ many ∈ (otm_subset df unitcol manycol).map Prod.fst, many ≠ Val.nan →
          ((otm_subset df unitcol manycol).filter (fun p => pyEq p.1 many)).length = 1) ∧
    one_to_many dfDeptEmp "dept" "emp" =
      .error (.assertion (.msg "1 in emp has multiple values for dept")) := by
  refine ⟨fun df unitcol manycol => ?_, by decide⟩
  rw [one_to_many, one_to_many_go_ok_iff]
  constructor
  · intro hall many hmany hnan
    have h1 := hall many ((mem_dedupFirst _ _).2 hmany)
    have h2 := filter_fst_pos hmany hnan
    omega
  · intro hall many hmany
    by_cases hnan : many = Val.nan
    · subst hnan
      rw [filter_nan_nil]
      simp
    · have := hall many ((mem_dedupFirst _ _).1 hmany) hnan
      omega

/-- The embedded `verify_df_series` at axis 0, written out: per-column results,
`how` reduction, and the failing-column payload. -/
lemma verify_df_series_axis0_eq (df : DF) (func : List Val → Bool)
    (columns : Option (List String)) (rows : Option (List Int)) (how : String) :
    verify_df_series df func columns rows 0 how =
      (let cls := resolveCols df columns
       let rws := resolveRows df rows
       let res := cls.map (fun c => (c, func (rws.map (fun r => df.cell r c))))
       if how == "all" then
         if (res.map Prod.snd).all id then .ok df
         else .error (.assertion
           (.colsFail ((res.filter (fun p => p.2 == false)).map Prod.fst)))
       else if how == "any" then
         if (res.map Prod.snd).any id then .ok df
         else .error (.assertion
           (.colsFail ((res.filter (fun p => p.2 == false)).map Prod.fst)))
       else .error (.valueError (howErrMsg how))) := rfl

/-- Projecting the per-column booleans out of the labelled results. -/
lemma colResults_snd (g : String → Bool) (cls : List String) :
    ((cls.map (fun c => (c, g c))).map Prod.snd) = cls.map g := by
  rw [List.map_map]; rfl

/-- The failing-label computation over labelled per-column results is
a plain filter of the column list. -/
lemma colResults_failed (g : String → Bool) (cls : List String) :
    (((cls.map (fun c => (c, g c))).filter (fun p => p.2 == false)).map Prod.fst) =
      cls.filter (fun c => g c == false) := by
  rw [List.filter_map, List.map_map]
  have h1 : (Prod.fst ∘ fun c : String => (c, g c)) = id := rfl
  have h2 : ((fun p : String × Bool => p.2 == false) ∘ fun c => (c, g c)) =
      fun c => g c == false := rfl
  rw [h1, h2, List.map_id]

/-- Reducing a mapped boolean list with `all` is a universal over the
source list. -/
lemma all_map_id_iff (g : String → Bool) (cls : List String) :
    ((cls.map g).all id = true) ↔ ∀ c ∈ cls, g c = true := by
  simp

/-- Reducing a mapped boolean list with `any` is an existential over
the source list. -/
lemma any_map_id_iff (g : String → Bool) (cls : List String) :
    ((cls.map g).any id = true) ↔ ∃ c ∈ cls, g c = true := by
  simp

/-- Claim C3: `verify_columns` with `how=all` passes only if the
boolean result of every selected column is true; with `how=any` it passes if
at least one is true; on failure it lists the non-passing column names;
and any `how` outside all/any raises a `ValueError` (a configuration
error), a different error kind than the `AssertionError` validation
failure. -/
theorem claim_C3 (df : DF) (func : List Val → Bool) (columns : Option (List String)) :
    (verify_columns df func columns "all" = .ok df ↔
      ∀ c ∈ resolveCols df columns, func (df.index.map (fun r => df.cell r c)) = true) ∧
    (verify_columns df func columns "any" = .ok df ↔
      ∃ c ∈ resolveCols df columns, func (df.index.map (fun r => df.cell r c)) = true) ∧
    (∀ (how : String) (e : Err), how = "all" ∨ how = "any" →
      verify_columns df func columns how = .error e →
      e = .assertion (.colsFail ((resolveCols df columns).filter
        (fun c => func (df.index.map (fun r => df.cell r c)) == false)))) ∧
    (∀ how : String, how ≠ "all" → how ≠ "any" →
      verify_columns df func columns how = .error (.valueError (howErrMsg how))) ∧
    (∀ (s : String) (p : ErrPayload), Err.valueError s ≠ Err.assertion p) := by
  have hresolve : resolveRows df none = df.index := rfl
  refine ⟨?_, ?_, ?_, ?_, fun s p h => Err.noConfusion h⟩
  · rw [verify_columns, verify_df_series_axis0_eq]
    simp only [hresolve, colResults_snd, if_pos (by decide : ("all" == "all") = true)]
    by_cases hall : ((resolveCols df columns).map
        (fun c => func (df.index.map (fun r => df.cell r c)))).all id = true
    · rw [if_pos hall]
      rw [all_map_id_iff] at hall
      exact ⟨fun _ => hall, fun _ => rfl⟩
    · rw [if_neg hall]
      rw [all_map_id_iff] at hall
      exact ⟨fun h => Except.noConfusion h, fun h => absurd h hall⟩
  · rw [verify_columns, verify_df_series_axis0_eq]
    simp only [hresolve, colResults_snd,
      if_neg (by decide : ¬ (("any" == "all") = true)),
      if_pos (by decide : ("any" == "any") = true)]
    by_cases hany : ((resolveCols df columns).map
        (fun c => func (df.index.map (fun r => df.cell r c)))).any id = true
    · rw [if_pos hany]
      rw [any_map_id_iff] at hany
      exact ⟨fun _ => hany, fun _ => rfl⟩
    · rw [if_neg hany]
      rw [any_map_id_iff] at hany
      exact ⟨fun h => Except.noConfusion h, fun h => absurd h hany⟩
  · rintro how e (rfl | rfl) herr <;>
      rw [verify_columns, verify_df_series_axis0_eq] at herr <;>
      simp only [hresolve] at herr
    · rw [if_pos (by decide : ("all" == "all") = true)] at herr
      by_cases hall : (((resolveCols df columns).map
          (fun c => (c, func (df.index.map (fun r => df.cell r c))))).map Prod.snd).all id = true
      · rw [if_pos hall] at herr; cases herr
      · rw [if_neg hall] at herr
        cases herr
        rw [colResults_failed]
    · rw [if_neg (by decide : ¬ (("any" == "all") = true)),
        if_pos (by decide : ("any" == "any") = true)] at herr
      by_cases hany : (((resolveCols df columns).map
          (fun c => (c, func (df.index.map (fun r => df.cell r c))))).map Prod.snd).any id = true
      · rw [if_pos hany] at herr; cases herr
      · rw [if_neg hany] at herr
        cases herr
        rw [colResults_failed]
  · intro how h1 h2
    rw [verify_columns, verify_df_series_axis0_eq]
    rw [if_neg (by simp [h1]), if_neg (by simp [h2])]

/-- Witness for C3: at a concrete table, a failing `how=all` check
reports the failing column names, and `how=bogus` raises the
configuration `ValueError`. -/
theorem claim_C3_witness :
    Err.assertion (.colsFail ["dept", "emp"]) =
      .assertion (.colsFail ((resolveCols dfDeptEmp none).filter
        (fun c => (fun vs => vs.all (fun v => v == Val.int 1))
          (dfDeptEmp.index.map (fun r => dfDeptEmp.cell r c)) == false))) ∧
    verify_columns dfDeptEmp (fun vs => vs.all (fun v => v == Val.int 1)) none "bogus" =
      .error (.valueError (howErrMsg "bogus")) :=
  ⟨(claim_C3 dfDeptEmp (fun vs => vs.all (fun v => v == Val.int 1)) none).2.2.1
      "all" (.assertion (.colsFail ["dept", "emp"])) (Or.inl rfl) (by decide),
   (claim_C3 dfDeptEmp (fun vs => vs.all (fun v => v == Val.int 1)) none).2.2.2.1
      "bogus" (by decide) (by decide)⟩

/-! ### Pass-through helper lemmas: the `.ok` result of each check is the
input table -/

/-- A pass-then-raise check returning `.ok` returns the table the
`then` branch holds. -/
lemma ite_ok_eq {c : Bool} {df r : DF} {e : Err}
    (h : (if c then Except.ok df else Except.error e) = .ok r) : r = df := by
  cases c
  · cases h
  · exact (Except.ok.inj h).symm

/-- The raise-then-pass variant of `ite_ok_eq`. -/
lemma ite_err_eq {c : Bool} {df r : DF} {e : Err}
    (h : (if c then Except.error e else Except.ok df) = .ok r) : r = df := by
  cases c
  · exact (Except.ok.inj h).symm
  · cases h

/-- The `is_monotonic` loop only returns its input table. -/
lemma is_monotonic_go_ok {df r : DF} :
    ∀ {l : List (String × Option Bool × Bool)}, is_monotonic_go df l = .ok r → r = df := by
  intro l
  induction l with
  | nil => intro h; exact (Except.ok.inj h).symm
  | cons p rest ih =>
    obtain ⟨col, inc, st⟩ := p
    intro h
    rw [is_monotonic_go] at h
    split at h
    · cases h
    · exact ih h

/-- The `is_unique` loop only returns its input table. -/
lemma is_unique_go_ok {df r : DF} :
    ∀ {l : List String}, is_unique_go df l = .ok r → r = df := by
  intro l
  induction l with
  | nil => intro h; exact (Except.ok.inj h).symm
  | cons c rest ih =>
    intro h
    rw [is_unique_go] at h
    split at h
    · cases h
    · exact ih h

/-- The `within_set` loop only returns its input table. -/
lemma within_set_go_ok {df r : DF} :
    ∀ {l : List (String × List Val)}, within_set_go df l = .ok r → r = df := by
  intro l
  induction l with
  | nil => intro h; exact (Except.ok.inj h).symm
  | cons p rest ih =>
    obtain ⟨k, v⟩ := p
    intro h
    rw [within_set_go] at h
    split at h
    · cases h
    · exact ih h

/-- The `within_range` loop only returns its input table. -/
lemma within_range_go_ok {df r : DF} :
    ∀ {l : List (String × Int × Int)}, within_range_go df l = .ok r → r = df := by
  intro l
  induction l with
  | nil => intro h; exact (Except.ok.inj h).symm
  | cons p rest ih =>
    obtain ⟨k, lo, hi⟩ := p
    intro h
    rw [within_range_go] at h
    split at h
    · cases h
    · exact ih h

/-- The `has_dtypes` loop only returns its input table. -/
lemma has_dtypes_go_ok {df r : DF} :
    ∀ {l : List (String × DtypeRule)}, has_dtypes_go df l = .ok r → r = df := by
  intro l
  induction l with
  | nil => intro h; exact (Except.ok.inj h).symm
  | cons p rest ih =>
    obtain ⟨k, v⟩ := p
    intro h
    cases v with
    | func fname f =>
      simp only [has_dtypes_go] at h
      split at h
      · split at h
        · cases h
        · exact ih h
      · cases h
    | str s =>
      simp only [has_dtypes_go] at h
      split at h
      · split at h
        · cases h
        · exact ih h
      · split at h
        · cases h
        · exact ih h

/-- The `one_to_many` loop only returns its input table. -/
lemma one_to_many_go_ok {df r : DF} {u m : String} {subset : List (Val × Val)} :
    ∀ {l : List Val}, one_to_many_go df u m subset l = .ok r → r = df := by
  intro l
  induction l with
  | nil => intro h; exact (Except.ok.inj h).symm
  | cons many rest ih =>
    intro h
    rw [one_to_many_go] at h
    split at h
    · cases h
    · exact ih h

/-- The embedded `verify_df_series` only returns its input table. -/
lemma verify_df_series_ok {df r : DF} {func : List Val → Bool}
    {columns : Option (List String)} {rows : Option (List Int)} {axis : Nat} {how : String}
    (h : verify_df_series df func columns rows axis how = .ok r) : r = df := by
  simp only [verify_df_series] at h
  repeat' split at h
  all_goals first
    | exact (Except.ok.inj h).symm
    | cases h

/-- Claim C1: pass-through identity — every check (none_missing,
is_monotonic, is_shape, is_unique, unique_index, within_set,
within_range, within_n_std, has_dtypes, one_to_many, is_same_as,
verify_df, verify_columns, verify_rows) that returns successfully
returns exactly its input table; in the pure embedding the input is
never modified, and every non-`.ok` outcome is a raise, so a modified
or partial table is never returned. -/
theorem claim_C1 :
    (∀ (df : DF) (columns : Option (List String)) (r : DF),
      none_missing df columns = .ok r → r = df) ∧
    (∀ (df : DF) (items : Option (List (String × Option Bool × Bool)))
        (increasing : Option Bool) (strict : Bool) (r : DF),
      is_monotonic df items increasing strict = .ok r → r = df) ∧
    (∀ (df : DF) (shape : ShapeDim × ShapeDim) (r : DF),
      is_shape df shape = .ok r → r = df) ∧
    (∀ (df : DF) (columns : Option (List String)) (r : DF),
      is_unique df columns = .ok r → r = df) ∧
    (∀ (df r : DF), unique_index df = .ok r → r = df) ∧
    (∀ (df : DF) (items : List (String × List Val)) (r : DF),
      within_set df items = .ok r → r = df) ∧
    (∀ (df : DF) (items : List (String × Int × Int)) (r : DF),
      within_range df items = .ok r → r = df) ∧
    (∀ (df : DF) (n : Int) (r : DF), within_n_std df n = .ok r → r = df) ∧
    (∀ (df : DF) (items : DtypeItems) (r : DF), has_dtypes df items = .ok r → r = df) ∧
    (∀ (df : DF) (unitcol manycol : String) (r : DF),
      one_to_many df unitcol manycol = .ok r → r = df) ∧
    (∀ (df df_to_compare r : DF), is_same_as df df_to_compare = .ok r → r = df) ∧
    (∀ (df : DF) (check : DF → Bool) (name : String) (r : DF),
      verify_df df check name = .ok r → r = df) ∧
    (∀ (df : DF) (func : List Val → Bool) (columns : Option (List String))
        (how : String) (r : DF), verify_columns df func columns how = .ok r → r = df) ∧
    (∀ (df : DF) (func : List Val → Bool) (rows : Option (List Int))
        (how : String) (r : DF), verify_rows df func rows how = .ok r → r = df) := by
  refine ⟨fun df columns r h => ite_err_eq h,
    fun df items increasing strict r h => is_monotonic_go_ok h,
    fun df shape r h => ite_ok_eq h,
    fun df columns r h => is_unique_go_ok h,
    fun df r h => ite_ok_eq h,
    fun df items r h => within_set_go_ok h,
    fun df items r h => within_range_go_ok h,
    fun df n r h => ite_err_eq h,
    fun df items r h => has_dtypes_go_ok h,
    fun df unitcol manycol r h => one_to_many_go_ok h,
    fun df df2 r h => ite_ok_eq h,
    fun df check name r h => ite_ok_eq h,
    fun df func columns how r h => verify_df_series_ok h,
    fun df func rows how r h => verify_df_series_ok h⟩

/-- Witness for C1: a concrete passing check returns the same table. -/
theorem claim_C1_witness :
    none_missing dfDeptEmp none = .ok dfDeptEmp ∧ dfDeptEmp = dfDeptEmp :=
  ⟨by decide, claim_C1.1 dfDeptEmp none dfDeptEmp (by decide)⟩

end Engarde
